import Mathlib

/-!
Shallow embedding of `backend/pointcloud-converter/converter.py`
(the Hekamap point-cloud conversion job) and proofs about it.

The job downloads a LAS/LAZ object from S3-compatible storage, runs the
external PotreeConverter tool, uploads the resulting directory tree, and
updates an `assets` record. External collaborators (boto3, Supabase,
PotreeConverter, the filesystem, `urlparse`, `json`) are modelled as
oracle inputs in explicit "world" structures; the effects the job issues
against them are collected in explicit effect traces.

Machine-level conventions:
* Python exceptions are modelled by `Except String` where the `String`
  is `str(e)`, the message of the exception.
* Python string primitives (`lstrip`, `rstrip`, `strip`, `find`,
  `rfind`, slicing, `str.split`, truthiness `or`) are re-implemented
  below one-to-one.
-/

deriving instance DecidableEq for Except

namespace PCC

/-- Python `s.lower()` (code-point-wise lowering; the source only meets
ASCII extensions). -/
def pyLower (s : String) : String :=
  String.mk (s.data.map Char.toLower)

/-- Python `s[:n]` (first `n` characters). -/
def pyTake (s : String) (n : Nat) : String :=
  String.mk (s.data.take n)

/-- Python `s[n:]` (drop the first `n` characters). -/
def pyDrop (s : String) (n : Nat) : String :=
  String.mk (s.data.drop n)

/-- Python `b.startswith(a)`. -/
def pyIsPrefixOf (a b : String) : Bool :=
  a.data.isPrefixOf b.data

/-- Python `s.endswith(t)`. -/
def pyEndsWith (s t : String) : Bool :=
  t.data.reverse.isPrefixOf s.data.reverse

/-- Worker for `pySplit`: split a character list at every occurrence of
`c` (Python `str.split` with a single-character separator and no
maxsplit). -/
def splitCharAux (c : Char) : List Char → List (List Char)
  | [] => [[]]
  | a :: t =>
    let r := splitCharAux c t
    if a = c then [] :: r
    else
      match r with
      | [] => [[a]]
      | h :: t2 => (a :: h) :: t2

/-- Python `s.split(c)` for a one-character separator. -/
def pySplit (s : String) (c : Char) : List String :=
  (splitCharAux c s.data).map String.mk

/-- Python `s.lstrip("/")`: drop every leading slash character. -/
def lstripSlash (s : String) : String :=
  String.mk (s.data.dropWhile (fun c => c = '/'))

/-- Python `s.rstrip("/")`: drop every trailing slash character. -/
def rstripSlash (s : String) : String :=
  String.mk ((s.data.reverse.dropWhile (fun c => c = '/')).reverse)

/-- Python `s.strip()` with no argument: trim whitespace on both ends. -/
def pyStrip (s : String) : String :=
  String.mk (((s.data.dropWhile Char.isWhitespace).reverse.dropWhile Char.isWhitespace).reverse)

/-- Python `a or b` on strings: `b` when `a` is empty (falsy). -/
def pyOr (a b : String) : String :=
  if a = "" then b else a

/-- Python `s.find(c)` for a single character: `none` models -1. -/
def pyFind (s : String) (c : Char) : Option Nat :=
  s.data.findIdx? (fun x => x = c)

/-- Python `s.rfind(c)` for a single character: `none` models -1. -/
def pyRfind (s : String) (c : Char) : Option Nat :=
  match s.data.reverse.findIdx? (fun x => x = c) with
  | none => none
  | some i => some (s.data.length - 1 - i)

/-- Python slice `s[a : b]` on character indices. -/
def pySlice (s : String) (a b : Nat) : String :=
  String.mk ((s.data.drop a).take (b - a))

/-- Python `pat in s` (substring containment). -/
def containsSub (s pat : String) : Bool :=
  (List.range (s.data.length + 1)).any (fun i => pat.data.isPrefixOf (s.data.drop i))

/-- Model of `pathlib.PurePath.suffix` of a file name: the final extension with
its dot, empty when there is no dot, when the only dot is the leading
character (dotfile), or when the name ends in a dot.  CPython:
`i = name.rfind('.'); return name[i:] if 0 < i < len(name) - 1 else ''`. -/
def pathSuffix (name : String) : String :=
  match pyRfind name '.' with
  | none => ""
  | some i => if 0 < i ∧ i + 1 < name.data.length then String.mk (name.data.drop i) else ""

/-- Final component of a forward-slash relative path (the file name
`pathlib` would report for it). -/
def posixName (rel : String) : String :=
  (pySplit rel '/').getLastD ""

/-- The fixed extension → MIME table of `_content_args_for`
(`content_type_map` in the source). -/
def content_type_map : List (String × String) :=
  [(".json", "application/json"),
   (".html", "text/html"),
   (".js", "application/javascript"),
   (".css", "text/css"),
   (".wasm", "application/wasm"),
   (".bin", "application/octet-stream"),
   (".txt", "text/plain"),
   (".svg", "image/svg+xml"),
   (".png", "image/png"),
   (".jpg", "image/jpeg"),
   (".jpeg", "image/jpeg"),
   (".gif", "image/gif"),
   (".map", "application/json"),
   (".xml", "application/xml")]

/-- Python `content_type_map.get(sfx, "application/octet-stream")`. -/
def ctLookup (sfx : String) : String :=
  (content_type_map.lookup sfx).getD "application/octet-stream"

/-- The `ExtraArgs` dict built by `_content_args_for`: a content type and
an optional content encoding. -/
structure ContentArgs where
  contentType : String
  contentEncoding : Option String
deriving DecidableEq

/-- Embeds `PointCloudConverter._content_args_for`, applied to the file NAME of
the uploaded path (only `Path.suffix` / `Path.name` of the argument are
consulted by the source). -/
def content_args_for (name : String) : ContentArgs :=
  let sfx := pyLower (pathSuffix name)
  let ct := ctLookup sfx
  if sfx = ".gz" then
    let parts := pySplit (pyLower name) '.'
    if 3 ≤ parts.length then
      { contentType := ctLookup ("." ++ parts.getD (parts.length - 2) ""),
        contentEncoding := some "gzip" }
    else
      { contentType := ct, contentEncoding := some "gzip" }
  else
    { contentType := ct, contentEncoding := none }

/-- The URL branch of `PointCloudConverter._derive_key`.  `urlPath`
models `urlparse(self.input_url).path or ""` (URL parsing itself is an
external collaborator, so the parsed path component is an input). -/
def derive_key_url (input_url urlPath bucket_name : String) : Except String String :=
  if input_url = "" then
    Except.error "input_url is empty (provide --input-key or --input-url)"
  else
    let key := lstripSlash urlPath
    let key :=
      if pyIsPrefixOf (bucket_name ++ "/") key then pyDrop key (bucket_name.length + 1)
      else key
    if key = "" then
      Except.error "Failed to derive object key from input_url; pass --input-key instead."
    else
      Except.ok key

/-- Embeds `PointCloudConverter._derive_key`.  Here `input_key` is `None` or a
string; Python truthiness sends both `None` and `""` to the URL
fallback branch. -/
def derive_key (input_key : Option String) (input_url urlPath bucket_name : String) :
    Except String String :=
  match input_key with
  | some ik =>
    if ik = "" then derive_key_url input_url urlPath bucket_name
    else
      let key := lstripSlash ik
      if key = "" then Except.error "input_key is empty" else Except.ok key
  | none => derive_key_url input_url urlPath bucket_name

/-- Forget the error message of an `Except String String`. -/
def exOk (e : Except String String) : Option String :=
  match e with
  | Except.ok v => some v
  | Except.error _ => none

/-- Spec-side key resolver, transcribed from the words of spec §4.1
("resolve"): explicit non-empty key wins after trimming leading slashes
(failing when trimming empties it); otherwise the URL must be non-empty,
only its path component is used, the leading slashes are trimmed, a
leading `<bucketName>/` segment is stripped, and an empty final key
fails.  `none` is any failure. -/
def resolveSpecUrl (url urlPath bucketName : String) : Option String :=
  if url = "" then none
  else
    let p := lstripSlash urlPath
    let p := if pyIsPrefixOf (bucketName ++ "/") p then pyDrop p (bucketName.length + 1) else p
    if p = "" then none else some p

/-- Spec-side key resolver, explicit-key branch, from the same spec
section as `resolveSpecUrl`. -/
def resolveSpec (explicitKey : Option String) (url urlPath bucketName : String) :
    Option String :=
  match explicitKey with
  | some k =>
    if k ≠ "" then
      let t := lstripSlash k
      if t = "" then none else some t
    else
      resolveSpecUrl url urlPath bucketName
  | none => resolveSpecUrl url urlPath bucketName

/-- A JSON value as far as this job inspects one: the integers it reads
as point counts, strings, the empty object (the bounding-box default
`{}` of the source, written here as a constructor to stay printable),
and an opaque tag for every other shape of value. -/
inductive JVal where
  | jint (n : Int)
  | jstr (s : String)
  | jemptyObj
  | jother (tag : Nat)
deriving DecidableEq

/-- The result of a successful `json.load` / `json.loads` call, as far
as `_extract_potree_metadata` inspects it: a dict from which the three
field names the source reads can each be present or absent. -/
structure JObj where
  points : Option JVal := none
  pointCount : Option JVal := none
  boundingBox : Option JVal := none
deriving DecidableEq

/-- The `meta` dict built by `_extract_potree_metadata`: absent keys are
`none` / `false`. -/
structure Meta where
  pointCount : Option JVal := none
  boundingBox : Option JVal := none
  metadata_read_error : Bool := false
  cloudjs_parse_failed : Bool := false
deriving DecidableEq

/-- The filesystem / parser oracle seen by `_extract_potree_metadata`:
the contents of `metadata.json` and `cloud.js` when those files exist,
and the behaviour of `json.load`/`json.loads` on a given text
(`none` models a raised parse error, and also a parse result that is
not a dict, on which the subsequent `.get` call raises -- both land in
the same `except` handler in the source). -/
structure ExtractWorld where
  metadataJson : Option String
  cloudJs : Option String
  jsonParse : String → Option JObj

/-- The two field reads the source performs on a parsed dict `m`:
`m.get("points", m.get("pointCount", 0))` and
`m.get("boundingBox", {})`. -/
def metaFromObj (m : JObj) (meta : Meta) : Meta :=
  { meta with
    pointCount := some ((m.points).getD ((m.pointCount).getD (JVal.jint 0))),
    boundingBox := some ((m.boundingBox).getD JVal.jemptyObj) }

/-- Python `meta.setdefault("pointCount", 0)`. -/
def setdefault_pointCount (meta : Meta) : Meta :=
  match meta.pointCount with
  | some _ => meta
  | none => { meta with pointCount := some (JVal.jint 0) }

/-- The `cloud.js` fallback block of `_extract_potree_metadata` followed
by the final `setdefault`: slice the text between the first brace and
the last closing brace (Python `txt.find("{")` / `txt.rfind("}")`, the
braces written via `Char.ofNat`), try to parse the slice, and record a
soft flag when parsing raises. -/
def cloudjs_step (w : ExtractWorld) (meta : Meta) : Meta :=
  match w.cloudJs with
  | none => setdefault_pointCount meta
  | some txt =>
    match pyFind txt (Char.ofNat 123), pyRfind txt (Char.ofNat 125) with
    | some s, some e =>
      if s < e then
        match w.jsonParse (pySlice txt s (e + 1)) with
        | some m => metaFromObj m meta
        | none => setdefault_pointCount { meta with cloudjs_parse_failed := true }
      else setdefault_pointCount meta
    | some _, none => setdefault_pointCount meta
    | none, _ => setdefault_pointCount meta

/-- Embeds `PointCloudConverter._extract_potree_metadata`.  Total by
construction: every fallible operation of the source (file reads, JSON
parsing, the `.get` calls) sits inside a `try`/`except` there, so the
embedding returns a `Meta` with no error channel — this totality is the
"never raises" contract. -/
def extract_potree_metadata (w : ExtractWorld) : Meta :=
  match w.metadataJson with
  | some content =>
    match w.jsonParse content with
    | some m => metaFromObj m {}
    | none => cloudjs_step w { metadata_read_error := true }
  | none => cloudjs_step w {}

/-- One `s3.upload_file` call issued by `upload_folder`: target bucket,
object key, and the `ExtraArgs` from the classifier. -/
structure UploadOp where
  bucket : String
  key : String
  args : ContentArgs
deriving DecidableEq

/-- The `for file_path in local_folder.rglob("*")` loop of
`upload_folder`, restricted (as the source is by `is_file()`) to the
regular files, each given by its forward-slash relative path below
`local_folder`; `n` is the running `file_count`.  Returns the final
count and the upload operations in traversal order. -/
def upload_loop (bucket_name pfx : String) : List String → Nat → Nat × List UploadOp
  | [], n => (n, [])
  | rel :: rest, n =>
    let op : UploadOp :=
      { bucket := bucket_name,
        key := rstripSlash pfx ++ "/" ++ rel,
        args := content_args_for (posixName rel) }
    let r := upload_loop bucket_name pfx rest (n + 1)
    (r.1, op :: r.2)

/-- The value `upload_folder` returns:
`f"{output_bucket}/{pfx.rstrip('/')}"` when `output_bucket` is truthy,
else `pfx.rstrip('/')`. -/
def upload_folder_url (output_bucket pfx : String) : String :=
  if output_bucket ≠ "" then output_bucket ++ "/" ++ rstripSlash pfx
  else rstripSlash pfx

/-- Embeds `PointCloudConverter.upload_folder` with every `s3.upload_file`
call succeeding: returned URL, final `file_count`, and the issued
upload operations. -/
def upload_folder_pure (files : List String) (bucket_name pfx output_bucket : String) :
    String × Nat × List UploadOp :=
  let r := upload_loop bucket_name pfx files 0
  (upload_folder_url output_bucket pfx, r.1, r.2)

/-- An observable effect of the pipeline: a structured log line, a
storage download/upload, directory creation, the external converter
subprocess, an `assets`-record update (the fields of the update dict:
`status`, `error_message`, `potree_url`, `metadata` -- `none` on
`error_message` models an explicit `null`, `none` on the last two
models "key absent from the update dict"), and the final
`shutil.rmtree(work_dir, ignore_errors=True)`.  `rmtree` has no failure
channel, exactly because the source passes `ignore_errors=True`.  Log
messages that interpolate numbers the model does not track (file sizes)
are abridged. -/
inductive Eff where
  | log (level msg : String)
  | s3download (bucket key : String)
  | mkdirOutput (dir : String)
  | runTool (input outDir : String)
  | s3upload (op : UploadOp)
  | dbUpdate (status : String) (error_message : Option String)
      (potree_url : Option String) (metadata : Option Meta)
  | rmtree
deriving DecidableEq

/-- The oracle world of one `run()` invocation: constructor arguments,
the path component `urlparse` yields for `input_url`, and the outcome
of every external call the pipeline can make. -/
structure RunWorld where
  asset_id : String
  input_key : Option String
  input_url : String
  urlPath : String
  bucket_name : String
  output_bucket : String
  work_dir : String
  downloadRes : Except String Unit
  inputFileExists : Bool
  toolReturncode : Int
  toolStdout : String
  toolStderr : String
  outputFiles : List String
  uploadRes : UploadOp → Except String Unit
  extractW : ExtractWorld
  updateDbRes : Except String Unit
  setErrorRes : Except String Unit

/-- Embeds `PointCloudConverter.download_input`: derive the key, pick the local
extension, call `s3.download_file`.  Returns the local path. -/
def download_input (w : RunWorld) : Except String String × List Eff :=
  let l0 := Eff.log "INFO" ("Downloading from " ++ pyOr w.input_url "(input_key mode)")
  match derive_key w.input_key w.input_url w.urlPath w.bucket_name with
  | Except.error e => (Except.error e, [l0])
  | Except.ok key =>
    let lower := pyLower key
    let ext :=
      if pyEndsWith lower ".laz" then ".laz"
      else if pyEndsWith lower ".las" then ".las"
      else if containsSub lower ".laz" then ".laz" else ".las"
    let local_path := w.work_dir ++ "/input" ++ ext
    let l1 := Eff.log "INFO" ("Downloading key: " ++ key ++ " from bucket: " ++ w.bucket_name)
    match w.downloadRes with
    | Except.error e => (Except.error e, [l0, l1, Eff.s3download w.bucket_name key])
    | Except.ok _ =>
      (Except.ok local_path,
       [l0, l1, Eff.s3download w.bucket_name key, Eff.log "INFO" "Downloaded"])

/-- Embeds `PointCloudConverter.convert_to_potree`: precondition check on the
input file, idempotent output-directory creation, subprocess run,
stdout always logged, non-zero exit raises a fixed-form error carrying
only the exit code (stderr is logged, not embedded). -/
def convert_to_potree (w : RunWorld) (input_file : String) : Except String String × List Eff :=
  let l0 := Eff.log "INFO" "Starting Potree conversion..."
  if w.inputFileExists = false then
    (Except.error ("Input file not found: " ++ input_file), [l0])
  else
    let output_dir := w.work_dir ++ "/potree"
    let pre := [l0, Eff.mkdirOutput output_dir, Eff.runTool input_file output_dir]
    let outLogs :=
      if pyStrip w.toolStdout ≠ "" then [Eff.log "INFO" (pyStrip w.toolStdout)] else []
    if w.toolReturncode ≠ 0 then
      let errS := pyStrip (pyOr w.toolStderr "")
      let errLogs :=
        if errS ≠ "" then [Eff.log "ERROR" ("PotreeConverter stderr: " ++ errS)] else []
      (Except.error ("PotreeConverter failed (code " ++ toString w.toolReturncode ++ ")"),
       pre ++ outLogs ++ errLogs)
    else
      (Except.ok output_dir, pre ++ outLogs ++ [Eff.log "INFO" "Potree conversion complete"])

/-- The upload loop with per-call outcomes: the first failing
`s3.upload_file` aborts the loop (its call was still issued). -/
def run_uploads (uploadRes : UploadOp → Except String Unit) :
    List UploadOp → Except String Unit × List Eff
  | [] => (Except.ok (), [])
  | op :: rest =>
    match uploadRes op with
    | Except.error e => (Except.error e, [Eff.s3upload op])
    | Except.ok _ =>
      let r := run_uploads uploadRes rest
      (r.1, Eff.s3upload op :: r.2)

/-- Embeds `PointCloudConverter.upload_folder` as invoked by `run`, with
fallible uploads.  On success the final `file_count` is logged and the
public URL is returned. -/
def upload_folder (w : RunWorld) : Except String String × List Eff :=
  let pfx := "processed/potree/" ++ w.asset_id
  let l0 := Eff.log "INFO" ("Uploading potree to " ++ pfx)
  let loopR := upload_loop w.bucket_name pfx w.outputFiles 0
  match run_uploads w.uploadRes loopR.2 with
  | (Except.error e, effs) => (Except.error e, l0 :: effs)
  | (Except.ok _, effs) =>
    (Except.ok (upload_folder_url w.output_bucket pfx),
     l0 :: effs ++ [Eff.log "INFO" ("Uploaded " ++ toString loopR.1 ++ " files")])

/-- Embeds `PointCloudConverter.update_database`: the single READY update,
clearing `error_message` (`none` = SQL `null`). -/
def update_database (w : RunWorld) (potree_url : String) (metadata : Meta) :
    Except String Unit × List Eff :=
  let l0 := Eff.log "INFO" "Updating database..."
  let upd := Eff.dbUpdate "READY" none (some potree_url) (some metadata)
  match w.updateDbRes with
  | Except.error e => (Except.error e, [l0, upd])
  | Except.ok _ => (Except.ok (), [l0, upd, Eff.log "INFO" "Database updated successfully"])

/-- Embeds `PointCloudConverter.set_error`: best-effort ERROR update with the
message truncated by `[:500]`; a failure of the update itself is logged
and swallowed (the `try`/`except` around the Supabase call). -/
def set_error (w : RunWorld) (error_message : String) : List Eff :=
  let l0 := Eff.log "ERROR" ("Setting error status: " ++ error_message)
  let upd := Eff.dbUpdate "ERROR" (some (pyTake (pyOr error_message "") 500)) none none
  match w.setErrorRes with
  | Except.ok _ => [l0, upd]
  | Except.error e => [l0, upd, Eff.log "ERROR" ("Failed to update error status: " ++ e)]

/-- The `try` block of `PointCloudConverter.run`: the five stages in
order, aborting at the first raised error. -/
def run_body (w : RunWorld) : Except String Unit × List Eff :=
  match download_input w with
  | (Except.error e, e1) => (Except.error e, e1)
  | (Except.ok input_file, e1) =>
    match convert_to_potree w input_file with
    | (Except.error e, e2) => (Except.error e, e1 ++ e2)
    | (Except.ok _potree_output, e2) =>
      match upload_folder w with
      | (Except.error e, e3) => (Except.error e, e1 ++ e2 ++ e3)
      | (Except.ok potree_url, e3) =>
        let metadata := extract_potree_metadata w.extractW
        match update_database w potree_url metadata with
        | (Except.error e, e4) => (Except.error e, e1 ++ e2 ++ e3 ++ e4)
        | (Except.ok _, e4) =>
          (Except.ok (), e1 ++ e2 ++ e3 ++ e4 ++ [Eff.log "INFO" "Conversion complete!"])

/-- Embeds `PointCloudConverter.cleanup`: log, then
`shutil.rmtree(work_dir, ignore_errors=True)`. -/
def cleanup_effs : List Eff :=
  [Eff.log "INFO" "Cleaning up temporary files...", Eff.rmtree]

/-- Embeds `PointCloudConverter.run`: `try` the body; `except Exception as e:`
run `set_error(str(e))` and re-`raise`; `finally:` run `cleanup()`. -/
def run (w : RunWorld) : Except String Unit × List Eff :=
  match run_body w with
  | (Except.ok _, effs) => (Except.ok (), effs ++ cleanup_effs)
  | (Except.error e, effs) => (Except.error e, effs ++ set_error w e ++ cleanup_effs)

/-- The process environment as `PointCloudConverter.__init__` reads it:
`none` models an unset variable. -/
structure Env where
  r2AccessKey : Option String := none
  r2SecretKey : Option String := none
  r2Endpoint : Option String := none
  r2BucketName : Option String := none
  supabaseUrl : Option String := none
  supabaseKey : Option String := none

/-- A side effect performed during `__init__`: the
`tempfile.mkdtemp` call that creates the scratch directory on disk, the
construction of the boto3 S3 client, the configuration log line, and
the construction of the Supabase client. -/
inductive InitEff where
  | mkdtemp
  | s3ClientCreate
  | logCfg
  | supabaseClientCreate
deriving DecidableEq

/-- Embeds `_require_env`: `os.environ.get(name, "").strip()`, raising
`ValueError(f"{name} must be set")` when blank. -/
def require_env (name : String) (v : Option String) : Except String String :=
  let s := pyStrip (v.getD "")
  if s = "" then Except.error (name ++ " must be set") else Except.ok s

/-- The bucket name `__init__` computes:
`os.environ.get("R2_BUCKET_NAME", "hekamap-assets").strip() or "hekamap-assets"`. -/
def bucket_name_of (env : Env) : String :=
  pyOr (pyStrip ((env.r2BucketName).getD "hekamap-assets")) "hekamap-assets"

/-- Embeds `PointCloudConverter.__init__` in source order: the working
directory is created by `tempfile.mkdtemp` FIRST, then the five
required environment variables are validated, then the S3 client, the
configuration log and the Supabase client are created. -/
def init_converter (env : Env) : Except String Unit × List InitEff :=
  let effs := [InitEff.mkdtemp]
  match require_env "R2_ACCESS_KEY" env.r2AccessKey with
  | Except.error e => (Except.error e, effs)
  | Except.ok _ =>
  match require_env "R2_SECRET_KEY" env.r2SecretKey with
  | Except.error e => (Except.error e, effs)
  | Except.ok _ =>
  match require_env "R2_ENDPOINT" env.r2Endpoint with
  | Except.error e => (Except.error e, effs)
  | Except.ok _ =>
  match require_env "SUPABASE_URL" env.supabaseUrl with
  | Except.error e => (Except.error e, effs)
  | Except.ok _ =>
  match require_env "SUPABASE_KEY" env.supabaseKey with
  | Except.error e => (Except.error e, effs)
  | Except.ok _ =>
    (Except.ok (),
     effs ++ [InitEff.s3ClientCreate, InitEff.logCfg, InitEff.supabaseClientCreate])

/-- Embeds `main()` as far as the claims reach: construct the converter (which
can fail during validation) and, only when construction succeeded, call
`run`.  The pipeline effect trace is empty whenever `__init__` failed. -/
def process_main (env : Env) (w : RunWorld) :
    Except String Unit × List InitEff × List Eff :=
  match init_converter env with
  | (Except.error e, ie) => (Except.error e, ie, [])
  | (Except.ok _, ie) => ((run w).1, ie, (run w).2)

/-- Effect classifier: is this effect an `assets`-record update? -/
def isDbUpdate : Eff → Bool
  | Eff.dbUpdate _ _ _ _ => true
  | _ => false

/-- Effect classifier: is this effect an `s3.upload_file` call? -/
def isS3upload : Eff → Bool
  | Eff.s3upload _ => true
  | _ => false

theorem pyOr_empty (s : String) : pyOr s "" = s := by
  unfold pyOr; split <;> simp_all

theorem upload_loop_count (b p : String) :
    ∀ (l : List String) (n : Nat), (upload_loop b p l n).1 = n + l.length := by
  intro l
  induction l with
  | nil => intro n; simp [upload_loop]
  | cons a t ih =>
    intro n
    simp [upload_loop, ih (n + 1)]
    omega

theorem upload_loop_ops (b p : String) :
    ∀ (l : List String) (n : Nat),
      (upload_loop b p l n).2 =
        l.map (fun rel =>
          { bucket := b, key := rstripSlash p ++ "/" ++ rel,
            args := content_args_for (posixName rel) : UploadOp}) := by
  intro l
  induction l with
  | nil => intro n; simp [upload_loop]
  | cons a t ih => intro n; simp [upload_loop, ih (n + 1)]

theorem run_uploads_all_ok (f : UploadOp → Except String Unit)
    (hf : ∀ op, f op = Except.ok ()) :
    ∀ ops, run_uploads f ops = (Except.ok (), ops.map Eff.s3upload) := by
  intro ops
  induction ops with
  | nil => simp [run_uploads]
  | cons op rest ih => simp [run_uploads, hf op, ih]

theorem not_mem_of_filter_dbUpdate_nil {l : List Eff}
    (hl : l.filter isDbUpdate = []) (st : String) (em : Option String)
    (u : Option String) (m : Option Meta) : Eff.dbUpdate st em u m ∉ l := by
  intro hm
  have hx : Eff.dbUpdate st em u m ∈ l.filter isDbUpdate :=
    List.mem_filter.mpr ⟨hm, rfl⟩
  rw [hl] at hx
  exact absurd hx (List.not_mem_nil _)

theorem download_input_rmtree_free (w : RunWorld) :
    Eff.rmtree ∉ (download_input w).2 := by
  unfold download_input
  rcases derive_key w.input_key w.input_url w.urlPath w.bucket_name with e | k
  · simp
  · rcases w.downloadRes with e | u <;> simp

theorem download_input_filter_dbUpdate (w : RunWorld) :
    (download_input w).2.filter isDbUpdate = [] := by
  unfold download_input
  rcases derive_key w.input_key w.input_url w.urlPath w.bucket_name with e | k
  · simp [isDbUpdate]
  · rcases w.downloadRes with e | u <;> simp [isDbUpdate]

theorem download_input_s3upload_free (w : RunWorld) (op : UploadOp) :
    Eff.s3upload op ∉ (download_input w).2 := by
  unfold download_input
  rcases derive_key w.input_key w.input_url w.urlPath w.bucket_name with e | k
  · simp
  · rcases w.downloadRes with e | u <;> simp

theorem convert_rmtree_free (w : RunWorld) (f : String) :
    Eff.rmtree ∉ (convert_to_potree w f).2 := by
  by_cases h1 : w.inputFileExists = false <;>
    by_cases h2 : pyStrip w.toolStdout = "" <;>
      by_cases h3 : w.toolReturncode = 0 <;>
        by_cases h4 : pyStrip (pyOr w.toolStderr "") = "" <;>
          simp [convert_to_potree, h1, h2, h3, h4]

theorem convert_filter_dbUpdate (w : RunWorld) (f : String) :
    (convert_to_potree w f).2.filter isDbUpdate = [] := by
  by_cases h1 : w.inputFileExists = false <;>
    by_cases h2 : pyStrip w.toolStdout = "" <;>
      by_cases h3 : w.toolReturncode = 0 <;>
        by_cases h4 : pyStrip (pyOr w.toolStderr "") = "" <;>
          simp [convert_to_potree, h1, h2, h3, h4, isDbUpdate]

theorem convert_s3upload_free (w : RunWorld) (f : String) (op : UploadOp) :
    Eff.s3upload op ∉ (convert_to_potree w f).2 := by
  by_cases h1 : w.inputFileExists = false <;>
    by_cases h2 : pyStrip w.toolStdout = "" <;>
      by_cases h3 : w.toolReturncode = 0 <;>
        by_cases h4 : pyStrip (pyOr w.toolStderr "") = "" <;>
          simp [convert_to_potree, h1, h2, h3, h4]

theorem run_uploads_rmtree_free (f : UploadOp → Except String Unit) :
    ∀ ops, Eff.rmtree ∉ (run_uploads f ops).2 := by
  intro ops
  induction ops with
  | nil => simp [run_uploads]
  | cons op rest ih =>
    rcases hf : f op with e | u <;> simp [run_uploads, hf, ih]

theorem run_uploads_filter_dbUpdate (f : UploadOp → Except String Unit) :
    ∀ ops, (run_uploads f ops).2.filter isDbUpdate = [] := by
  intro ops
  induction ops with
  | nil => simp [run_uploads]
  | cons op rest ih =>
    rcases hf : f op with e | u <;> simp [run_uploads, hf, ih, isDbUpdate]

theorem upload_folder_rmtree_free (w : RunWorld) :
    Eff.rmtree ∉ (upload_folder w).2 := by
  unfold upload_folder
  have h := run_uploads_rmtree_free w.uploadRes
    (upload_loop w.bucket_name ("processed/potree/" ++ w.asset_id) w.outputFiles 0).2
  rcases hru : run_uploads w.uploadRes
      (upload_loop w.bucket_name ("processed/potree/" ++ w.asset_id) w.outputFiles 0).2
    with ⟨r, effs⟩
  rw [hru] at h
  rcases r with e | u <;> simp_all

theorem upload_folder_filter_dbUpdate (w : RunWorld) :
    (upload_folder w).2.filter isDbUpdate = [] := by
  unfold upload_folder
  have h := run_uploads_filter_dbUpdate w.uploadRes
    (upload_loop w.bucket_name ("processed/potree/" ++ w.asset_id) w.outputFiles 0).2
  rcases hru : run_uploads w.uploadRes
      (upload_loop w.bucket_name ("processed/potree/" ++ w.asset_id) w.outputFiles 0).2
    with ⟨r, effs⟩
  rw [hru] at h
  rcases r with e | u <;> simp_all [isDbUpdate]

theorem update_database_rmtree_free (w : RunWorld) (u : String) (m : Meta) :
    Eff.rmtree ∉ (update_database w u m).2 := by
  rcases h : w.updateDbRes with e | x <;> simp [update_database, h]

theorem update_database_filter_dbUpdate (w : RunWorld) (u : String) (m : Meta) :
    (update_database w u m).2.filter isDbUpdate =
      [Eff.dbUpdate "READY" none (some u) (some m)] := by
  rcases h : w.updateDbRes with e | x <;> simp [update_database, h, isDbUpdate]

theorem update_database_s3upload_free (w : RunWorld) (u : String) (m : Meta) (op : UploadOp) :
    Eff.s3upload op ∉ (update_database w u m).2 := by
  rcases h : w.updateDbRes with e | x <;> simp [update_database, h]

theorem set_error_rmtree_free (w : RunWorld) (e : String) :
    Eff.rmtree ∉ set_error w e := by
  rcases h : w.setErrorRes with s | x <;> simp [set_error, h]

theorem set_error_filter_dbUpdate (w : RunWorld) (e : String) :
    (set_error w e).filter isDbUpdate =
      [Eff.dbUpdate "ERROR" (some (pyTake (pyOr e "") 500)) none none] := by
  rcases h : w.setErrorRes with s | x <;> simp [set_error, h, isDbUpdate]

theorem set_error_s3upload_free (w : RunWorld) (e : String) (op : UploadOp) :
    Eff.s3upload op ∉ set_error w e := by
  rcases h : w.setErrorRes with s | x <;> simp [set_error, h]

theorem run_body_rmtree_free (w : RunWorld) : Eff.rmtree ∉ (run_body w).2 := by
  unfold run_body
  rcases hde : download_input w with ⟨rd, e1⟩
  have h1 : Eff.rmtree ∉ e1 := by
    have := download_input_rmtree_free w; rw [hde] at this; exact this
  rcases rd with e | input_file
  · simpa using h1
  · rcases hcv : convert_to_potree w input_file with ⟨rc, e2⟩
    have h2 : Eff.rmtree ∉ e2 := by
      have := convert_rmtree_free w input_file; rw [hcv] at this; exact this
    rcases rc with e | od
    · simp_all
    · rcases hup : upload_folder w with ⟨ru, e3⟩
      have h3 : Eff.rmtree ∉ e3 := by
        have := upload_folder_rmtree_free w; rw [hup] at this; exact this
      rcases ru with e | url
      · simp_all
      · rcases hud : update_database w url (extract_potree_metadata w.extractW) with ⟨rr, e4⟩
        have h4 : Eff.rmtree ∉ e4 := by
          have := update_database_rmtree_free w url (extract_potree_metadata w.extractW)
          rw [hud] at this; exact this
        rcases rr with e | x <;> simp_all

theorem update_database_dbUpdate_mem (w : RunWorld) (u : String) (m : Meta)
    (st : String) (em : Option String) (uu : Option String) (mm : Option Meta)
    (h : Eff.dbUpdate st em uu mm ∈ (update_database w u m).2) :
    st = "READY" ∧ em = none ∧ uu = some u ∧ mm = some m := by
  rcases hud : w.updateDbRes with e | x <;> rw [update_database] at h <;>
    simp [hud] at h <;> simp_all

theorem set_error_dbUpdate_mem (w : RunWorld) (e : String)
    (st : String) (em : Option String) (uu : Option String) (mm : Option Meta)
    (h : Eff.dbUpdate st em uu mm ∈ set_error w e) :
    st = "ERROR" ∧ em = some (pyTake (pyOr e "") 500) ∧ uu = none ∧ mm = none := by
  rcases hse : w.setErrorRes with s | x <;> rw [set_error] at h <;>
    simp [hse] at h <;> simp_all

theorem upload_folder_ok_url (w : RunWorld) (url : String) (effs : List Eff)
    (h : upload_folder w = (Except.ok url, effs)) :
    url = upload_folder_url w.output_bucket ("processed/potree/" ++ w.asset_id) := by
  rcases hru : run_uploads w.uploadRes
      (upload_loop w.bucket_name ("processed/potree/" ++ w.asset_id) w.outputFiles 0).2
    with ⟨rr, ee⟩
  rcases rr with e | x <;> simp_all [upload_folder, hru]

theorem run_body_dbUpdate_mem (w : RunWorld)
    (st : String) (em : Option String) (uu : Option String) (mm : Option Meta)
    (h : Eff.dbUpdate st em uu mm ∈ (run_body w).2) :
    st = "READY" ∧ em = none
    ∧ uu = some (upload_folder_url w.output_bucket ("processed/potree/" ++ w.asset_id))
    ∧ mm = some (extract_potree_metadata w.extractW) := by
  rcases hde : download_input w with ⟨rd, e1⟩
  have h1 : Eff.dbUpdate st em uu mm ∉ e1 := by
    have := not_mem_of_filter_dbUpdate_nil (download_input_filter_dbUpdate w) st em uu mm
    rw [hde] at this; exact this
  rcases rd with e | input_file
  · simp only [run_body, hde] at h
    exact absurd h h1
  · rcases hcv : convert_to_potree w input_file with ⟨rc, e2⟩
    have h2 : Eff.dbUpdate st em uu mm ∉ e2 := by
      have := not_mem_of_filter_dbUpdate_nil (convert_filter_dbUpdate w input_file) st em uu mm
      rw [hcv] at this; exact this
    rcases rc with e | od
    · simp only [run_body, hde, hcv, List.mem_append] at h
      rcases h with h | h
      · exact absurd h h1
      · exact absurd h h2
    · rcases hup : upload_folder w with ⟨ru, e3⟩
      have h3 : Eff.dbUpdate st em uu mm ∉ e3 := by
        have := not_mem_of_filter_dbUpdate_nil (upload_folder_filter_dbUpdate w) st em uu mm
        rw [hup] at this; exact this
      rcases ru with e | url
      · simp only [run_body, hde, hcv, hup, List.mem_append] at h
        rcases h with (h | h) | h
        · exact absurd h h1
        · exact absurd h h2
        · exact absurd h h3
      · have hu4 := upload_folder_ok_url w url e3 hup
        rcases hud : update_database w url (extract_potree_metadata w.extractW) with ⟨rr, e4⟩
        have h4 : Eff.dbUpdate st em uu mm ∈ e4 →
            st = "READY" ∧ em = none ∧ uu = some url
              ∧ mm = some (extract_potree_metadata w.extractW) := by
          intro hm
          have := update_database_dbUpdate_mem w url (extract_potree_metadata w.extractW)
            st em uu mm
          rw [hud] at this
          exact this hm
        rcases rr with e | x
        · simp only [run_body, hde, hcv, hup, hud, List.mem_append] at h
          rcases h with ((h | h) | h) | h
          · exact absurd h h1
          · exact absurd h h2
          · exact absurd h h3
          · have := h4 h
            exact ⟨this.1, this.2.1, by rw [this.2.2.1, hu4], this.2.2.2⟩
        · simp only [run_body, hde, hcv, hup, hud, List.mem_append,
            List.mem_singleton] at h
          rcases h with (((h | h) | h) | h) | h
          · exact absurd h h1
          · exact absurd h h2
          · exact absurd h h3
          · have := h4 h
            exact ⟨this.1, this.2.1, by rw [this.2.2.1, hu4], this.2.2.2⟩
          · exact absurd h (by simp)

theorem getLast_append_cleanup (l : List Eff) :
    (l ++ cleanup_effs).getLast? = some Eff.rmtree := by
  have h : l ++ cleanup_effs =
      (l ++ [Eff.log "INFO" "Cleaning up temporary files..."]) ++ [Eff.rmtree] := by
    simp [cleanup_effs]
  rw [h, List.getLast?_concat]

theorem exOk_ite (c : Prop) [Decidable c] (msg v : String) :
    exOk (if c then Except.error msg else Except.ok v) = if c then none else some v := by
  by_cases h : c <;> simp [h, exOk]

theorem exOk_derive_key_url (url p b : String) :
    exOk (derive_key_url url p b) = resolveSpecUrl url p b := by
  unfold derive_key_url resolveSpecUrl
  by_cases hu : url = ""
  · simp [hu, exOk]
  · simp only [hu, if_false]
    exact exOk_ite _ _ _

/-- C4: the key resolver honours the spec contract: an explicit key is
returned with leading slashes trimmed (failing when trimming empties
it); otherwise an empty URL fails, only the URL path component is used,
a leading `<bucketName>/` segment is stripped, and an empty final key
fails with the message directing the caller to `--input-key`.  Stated
as a refinement against `resolveSpec`, the spec-side resolver, plus the
spec §8 concrete examples. -/
theorem derive_key_matches_resolve_spec (ik : Option String) (url p b : String) :
    exOk (derive_key ik url p b) = resolveSpec ik url p b
    ∧ (∀ k, ik = some k → k ≠ "" → lstripSlash k = "" →
        derive_key ik url p b = Except.error "input_key is empty")
    ∧ ((ik = none ∨ ik = some "") → url ≠ "" → resolveSpecUrl url p b = none →
        derive_key ik url p b =
          Except.error "Failed to derive object key from input_url; pass --input-key instead.")
    ∧ derive_key none "u" "/bkt/a/b.laz" "bkt" = Except.ok "a/b.laz"
    ∧ derive_key none "u" "/a/b.laz" "other" = Except.ok "a/b.laz" := by
  refine ⟨?_, ?_, ?_, by decide, by decide⟩
  · rcases ik with _ | k
    · exact exOk_derive_key_url url p b
    · by_cases hk : k = ""
      · simpa [derive_key, resolveSpec, hk] using exOk_derive_key_url url p b
      · by_cases ht : lstripSlash k = "" <;> simp [derive_key, resolveSpec, hk, ht, exOk]
  · intro k hik hk ht
    subst hik
    simp [derive_key, hk, ht]
  · intro hor hu hn
    have hd : derive_key ik url p b = derive_key_url url p b := by
      rcases hor with hh | hh <;> subst hh <;> simp [derive_key]
    rw [hd]
    unfold derive_key_url
    unfold resolveSpecUrl at hn
    by_cases hq : (if pyIsPrefixOf (b ++ "/") (lstripSlash p) = true
        then pyDrop (lstripSlash p) (b.length + 1) else lstripSlash p) = ""
    · simp [hu, hq]
    · simp [hu, hq] at hn

/-- C4 witness: concrete discharge of the resolver theorem at a URL
whose path reduces to the bucket segment alone, so key derivation
fails with the instructive message. -/
theorem derive_key_matches_resolve_spec_witness :
    ((none : Option String) = none ∨ (none : Option String) = some "")
    ∧ ("https://h/bkt/" ≠ "")
    ∧ resolveSpecUrl "https://h/bkt/" "/bkt/" "bkt" = none
    ∧ derive_key none "https://h/bkt/" "/bkt/" "bkt" =
        Except.error "Failed to derive object key from input_url; pass --input-key instead." :=
  ⟨Or.inl rfl, by decide, by decide,
   (derive_key_matches_resolve_spec none "https://h/bkt/" "/bkt/" "bkt").2.2.1
     (Or.inl rfl) (by decide) (by decide)⟩

/-- The second-to-last dot-delimited suffix of a lower-cased name, when
the name has at least two suffixes (spec §4.2's "double-suffixed
name"); otherwise absent. -/
def secondLastSfx (name : String) : Option String :=
  let parts := pySplit (pyLower name) '.'
  if 3 ≤ parts.length then some ("." ++ parts.getD (parts.length - 2) "") else none

/-- C9: the content-type classifier is a total function (its type has
no failure channel): a non-`.gz` final extension is looked up in the
fixed MIME table with the binary default and no content-encoding; a
`.gz` final extension yields encoding gzip with the type re-derived
from the second-to-last dot-delimited suffix, defaulting to
`application/octet-stream` when that suffix is unrecognized or absent;
plus the spec §8 concrete examples. -/
theorem content_args_spec :
    (∀ name, pyLower (pathSuffix name) ≠ ".gz" →
      content_args_for name =
        { contentType := ctLookup (pyLower (pathSuffix name)), contentEncoding := none })
    ∧ (∀ name, pyLower (pathSuffix name) = ".gz" →
      content_args_for name =
        { contentType := ((secondLastSfx name).map ctLookup).getD "application/octet-stream",
          contentEncoding := some "gzip" })
    ∧ content_args_for "scene.js" =
        { contentType := "application/javascript", contentEncoding := none }
    ∧ content_args_for "scene.js.gz" =
        { contentType := "application/javascript", contentEncoding := some "gzip" }
    ∧ content_args_for "unknown.xyz" =
        { contentType := "application/octet-stream", contentEncoding := none } := by
  refine ⟨?_, ?_, by decide, by decide, by decide⟩
  · intro name h
    simp [content_args_for, h]
  · intro name h
    by_cases hp : 3 ≤ (pySplit (pyLower name) '.').length
    · simp [content_args_for, secondLastSfx, h, hp]
    · simp [content_args_for, secondLastSfx, h, hp]
      decide

/-- C9 witness: concrete discharge of the classifier theorem at a
known non-gz extension. -/
theorem content_args_spec_witness :
    (pyLower (pathSuffix "m.json") ≠ ".gz")
    ∧ content_args_for "m.json" =
        { contentType := ctLookup (pyLower (pathSuffix "m.json")), contentEncoding := none } :=
  ⟨by decide, content_args_spec.1 "m.json" (by decide)⟩

/-- C5 counterexample: `upload_folder` does NOT return the count of
files uploaded — on a two-file tree it returns the public artifact URL
(a string that is not the rendering of the count 2); the count is only
logged. -/
theorem upload_folder_returns_url_not_count :
    (upload_folder_pure ["a.js", "sub/b.bin"] "bkt" "p" "https://cdn").1 = "https://cdn/p"
    ∧ (upload_folder_pure ["a.js", "sub/b.bin"] "bkt" "p" "https://cdn").2.1 = 2
    ∧ ("https://cdn/p" : String) ≠ toString (2 : Nat) := by
  refine ⟨by decide, by decide, by decide⟩

theorem filter_s3upload_map (ops : List UploadOp) :
    (ops.map Eff.s3upload).filter isS3upload = ops.map Eff.s3upload := by
  induction ops with
  | nil => rfl
  | cons op t ih => simp [isS3upload, ih]

theorem filter_s3upload_map_gen (f : String → UploadOp) (l : List String) :
    ((l.map (Eff.s3upload ∘ f)).filter isS3upload).length = l.length := by
  induction l with
  | nil => rfl
  | cons a t ih => simpa [isS3upload] using ih

/-- C5 amended: over a tree of N regular files `upload_folder` issues
exactly N upload operations, each keyed `<keyPrefix>/<relative path>`
with the classifier's content arguments; the final `file_count` equals
N but is only logged — the function RETURNS the artifact URL, not the
count. -/
theorem upload_folder_ops_and_url (files : List String) (b p ob : String) :
    (upload_folder_pure files b p ob).2.1 = files.length
    ∧ (upload_folder_pure files b p ob).2.2 =
        files.map (fun rel =>
          { bucket := b, key := rstripSlash p ++ "/" ++ rel,
            args := content_args_for (posixName rel) : UploadOp })
    ∧ (upload_folder_pure files b p ob).1 = upload_folder_url ob p
    ∧ (∀ w : RunWorld, (∀ op, w.uploadRes op = Except.ok ()) →
        ((upload_folder w).2.filter isS3upload).length = w.outputFiles.length) := by
  refine ⟨by simp [upload_folder_pure, upload_loop_count],
    by simp [upload_folder_pure, upload_loop_ops], rfl, ?_⟩
  intro w hok
  have hru := run_uploads_all_ok w.uploadRes hok
    (upload_loop w.bucket_name ("processed/potree/" ++ w.asset_id) w.outputFiles 0).2
  rw [upload_loop_ops] at hru
  simp [upload_folder, hru, List.filter_append, filter_s3upload_map, isS3upload,
    upload_loop_ops]
  exact filter_s3upload_map_gen _ _

/-- Shared concrete world: fully healthy external collaborators, one
output file. -/
def w5 : RunWorld :=
  { asset_id := "a", input_key := some "k.laz", input_url := "", urlPath := "",
    bucket_name := "bkt", output_bucket := "https://cdn", work_dir := "/w",
    downloadRes := Except.ok (), inputFileExists := true, toolReturncode := 0,
    toolStdout := "", toolStderr := "", outputFiles := ["x.js"],
    uploadRes := fun _ => Except.ok (),
    extractW := { metadataJson := none, cloudJs := none, jsonParse := fun _ => none },
    updateDbRes := Except.ok (), setErrorRes := Except.ok () }

/-- C5 witness: concrete discharge of the upload-count conjunct. -/
theorem upload_folder_ops_and_url_witness :
    (∀ op, w5.uploadRes op = Except.ok ())
    ∧ ((upload_folder w5).2.filter isS3upload).length = w5.outputFiles.length :=
  ⟨fun _ => rfl, (upload_folder_ops_and_url [] "" "" "").2.2.2 w5 (fun _ => rfl)⟩

/-- C7: `convert_to_potree` raises a descriptive error and does NOT
invoke the external tool when the input file is missing; a non-zero
tool exit raises an error whose message is the fixed form carrying only
the exit code (so the tool stderr text is never embedded); a zero exit
returns the output directory without raising. -/
theorem convert_spec_behaviour (w : RunWorld) (input_file : String) :
    (w.inputFileExists = false →
      (convert_to_potree w input_file).1 =
          Except.error ("Input file not found: " ++ input_file)
      ∧ ∀ i o, Eff.runTool i o ∉ (convert_to_potree w input_file).2)
    ∧ (w.inputFileExists = true → w.toolReturncode ≠ 0 →
      (convert_to_potree w input_file).1 =
        Except.error ("PotreeConverter failed (code " ++ toString w.toolReturncode ++ ")"))
    ∧ (w.inputFileExists = true → w.toolReturncode = 0 →
      (convert_to_potree w input_file).1 = Except.ok (w.work_dir ++ "/potree")) := by
  refine ⟨?_, ?_, ?_⟩
  · intro h
    constructor
    · simp [convert_to_potree, h]
    · intro i o
      simp [convert_to_potree, h]
  · intro h1 h2
    by_cases h3 : pyStrip w.toolStdout = "" <;>
      by_cases h4 : pyStrip (pyOr w.toolStderr "") = "" <;>
        simp [convert_to_potree, h1, h2, h3, h4]
  · intro h1 h2
    by_cases h3 : pyStrip w.toolStdout = "" <;> simp [convert_to_potree, h1, h2, h3]

/-- Concrete world for the conversion-invoker witness: the downloaded
input file is missing. -/
def w7 : RunWorld :=
  { w5 with inputFileExists := false }

/-- C7 witness: concrete discharge at a world whose input file is
missing. -/
theorem convert_spec_behaviour_witness :
    w7.inputFileExists = false
    ∧ (convert_to_potree w7 "/w/input.laz").1 =
        Except.error ("Input file not found: " ++ "/w/input.laz") :=
  ⟨rfl, ((convert_spec_behaviour w7 "/w/input.laz").1 rfl).1⟩

theorem setdefault_read_error (m : Meta) :
    (setdefault_pointCount m).metadata_read_error = m.metadata_read_error := by
  rcases h : m.pointCount with _ | v <;> simp [setdefault_pointCount, h]

theorem metaFromObj_read_error (o : JObj) (m : Meta) :
    (metaFromObj o m).metadata_read_error = m.metadata_read_error := rfl

theorem cloudjs_step_read_error (w : ExtractWorld) (m : Meta) :
    (cloudjs_step w m).metadata_read_error = m.metadata_read_error := by
  rcases hcj : w.cloudJs with _ | txt
  · simp [cloudjs_step, hcj, setdefault_read_error]
  · rcases hf : pyFind txt (Char.ofNat 123) with _ | s
    · simp [cloudjs_step, hcj, hf, setdefault_read_error]
    · rcases hr : pyRfind txt (Char.ofNat 125) with _ | e
      · simp [cloudjs_step, hcj, hf, hr, setdefault_read_error]
      · by_cases hlt : s < e
        · rcases hp : w.jsonParse (pySlice txt s (e + 1)) with _ | o <;>
            simp [cloudjs_step, hcj, hf, hr, hlt, hp, setdefault_read_error, metaFromObj]
        · simp [cloudjs_step, hcj, hf, hr, hlt, setdefault_read_error]

/-- C8: the metadata extractor (total by type, modelling "never
raises"): a parseable primary `metadata.json` yields the point count
from `points` (falling back to `pointCount`, defaulting to 0) and the
bounding box (defaulting to the empty object) with no flags; a corrupt
primary file sets the soft `metadata_read_error` flag and falls through
to `cloud.js` (whose parsed values are then used, keeping the flag);
with neither file present the result is point count 0 and no flags. -/
theorem extract_metadata_spec (w : ExtractWorld) :
    (∀ content m, w.metadataJson = some content → w.jsonParse content = some m →
      extract_potree_metadata w =
        { pointCount := some ((m.points).getD ((m.pointCount).getD (JVal.jint 0))),
          boundingBox := some ((m.boundingBox).getD JVal.jemptyObj),
          metadata_read_error := false, cloudjs_parse_failed := false })
    ∧ (∀ content, w.metadataJson = some content → w.jsonParse content = none →
        (extract_potree_metadata w).metadata_read_error = true)
    ∧ (w.metadataJson = none → w.cloudJs = none →
        extract_potree_metadata w =
          { pointCount := some (JVal.jint 0), boundingBox := none,
            metadata_read_error := false, cloudjs_parse_failed := false })
    ∧ (∀ content txt s e m, w.metadataJson = some content → w.jsonParse content = none →
        w.cloudJs = some txt →
        pyFind txt (Char.ofNat 123) = some s → pyRfind txt (Char.ofNat 125) = some e →
        s < e → w.jsonParse (pySlice txt s (e + 1)) = some m →
        extract_potree_metadata w =
          { pointCount := some ((m.points).getD ((m.pointCount).getD (JVal.jint 0))),
            boundingBox := some ((m.boundingBox).getD JVal.jemptyObj),
            metadata_read_error := true, cloudjs_parse_failed := false }) := by
  refine ⟨?_, ?_, ?_, ?_⟩
  · intro c m h1 h2
    simp [extract_potree_metadata, h1, h2, metaFromObj]
  · intro c h1 h2
    simp only [extract_potree_metadata, h1, h2]
    rw [cloudjs_step_read_error]
  · intro h1 h2
    simp [extract_potree_metadata, h1, cloudjs_step, h2, setdefault_pointCount]
  · intro c txt s e m h1 h2 h3 h4 h5 h6 h7
    simp [extract_potree_metadata, h1, h2, cloudjs_step, h3, h4, h5, h6, h7, metaFromObj]

/-- Concrete extractor world for the C8 witness: a parseable primary
metadata file reporting one million points. -/
def w8 : ExtractWorld :=
  { metadataJson := some "MJ", cloudJs := none,
    jsonParse := fun s =>
      if s = "MJ" then some { points := some (JVal.jint 1000000) } else none }

/-- C8 witness: concrete discharge at a world with a well-formed
primary metadata file. -/
theorem extract_metadata_spec_witness :
    w8.metadataJson = some "MJ"
    ∧ w8.jsonParse "MJ" = some { points := some (JVal.jint 1000000) }
    ∧ extract_potree_metadata w8 =
        { pointCount := some (JVal.jint 1000000), boundingBox := some JVal.jemptyObj,
          metadata_read_error := false, cloudjs_parse_failed := false } :=
  ⟨rfl, by decide,
   (extract_metadata_spec w8).1 "MJ" { points := some (JVal.jint 1000000) } rfl (by decide)⟩

theorem require_env_ok_ne (n : String) (v : Option String) (s : String)
    (h : require_env n v = Except.ok s) : pyStrip (v.getD "") ≠ "" := by
  intro hb
  simp [require_env, hb] at h

/-- C3 counterexample: with every required variable unset, `__init__`
does raise the configuration error, but its effect trace is NOT empty:
`tempfile.mkdtemp` has already created the working directory on disk —
a side effect performed before the configuration check, contradicting
"before any side effect occurs". -/
theorem init_side_effect_before_config_check :
    (init_converter {}).1 = Except.error "R2_ACCESS_KEY must be set"
    ∧ (init_converter {}).2 = [InitEff.mkdtemp]
    ∧ (init_converter {}).2 ≠ ([] : List InitEff) := by
  refine ⟨by decide, by decide, by decide⟩

/-- C3 amended: when any of the five required configuration values is
missing or blank (whitespace-only included), construction raises a
configuration error before either network client (storage, record
store) is created, and the pipeline never starts — no download and no
error-marking update is issued.  (The `mkdtemp` working-directory
creation, a filesystem side effect, still precedes the check.) -/
theorem init_config_error_before_any_client (env : Env) (w : RunWorld)
    (h : pyStrip ((env.r2AccessKey).getD "") = "" ∨ pyStrip ((env.r2SecretKey).getD "") = ""
       ∨ pyStrip ((env.r2Endpoint).getD "") = "" ∨ pyStrip ((env.supabaseUrl).getD "") = ""
       ∨ pyStrip ((env.supabaseKey).getD "") = "") :
    (∃ m, (init_converter env).1 = Except.error m)
    ∧ InitEff.s3ClientCreate ∉ (init_converter env).2
    ∧ InitEff.supabaseClientCreate ∉ (init_converter env).2
    ∧ (process_main env w).2.2 = [] := by
  have key : ∃ m, init_converter env = (Except.error m, [InitEff.mkdtemp]) := by
    rcases h1 : require_env "R2_ACCESS_KEY" env.r2AccessKey with e | s1
    · exact ⟨e, by simp [init_converter, h1]⟩
    · rcases h2 : require_env "R2_SECRET_KEY" env.r2SecretKey with e | s2
      · exact ⟨e, by simp [init_converter, h1, h2]⟩
      · rcases h3 : require_env "R2_ENDPOINT" env.r2Endpoint with e | s3
        · exact ⟨e, by simp [init_converter, h1, h2, h3]⟩
        · rcases h4 : require_env "SUPABASE_URL" env.supabaseUrl with e | s4
          · exact ⟨e, by simp [init_converter, h1, h2, h3, h4]⟩
          · rcases h5 : require_env "SUPABASE_KEY" env.supabaseKey with e | s5
            · exact ⟨e, by simp [init_converter, h1, h2, h3, h4, h5]⟩
            · exfalso
              rcases h with hb | hb | hb | hb | hb
              · exact require_env_ok_ne _ _ _ h1 hb
              · exact require_env_ok_ne _ _ _ h2 hb
              · exact require_env_ok_ne _ _ _ h3 hb
              · exact require_env_ok_ne _ _ _ h4 hb
              · exact require_env_ok_ne _ _ _ h5 hb
  obtain ⟨m, hm⟩ := key
  refine ⟨⟨m, by rw [hm]⟩, ?_, ?_, ?_⟩
  · rw [hm]; simp
  · rw [hm]; simp
  · unfold process_main
    rw [hm]

/-- Concrete environment for the C3 witness: secret key set but blank. -/
def env3 : Env :=
  { r2AccessKey := some "ak", r2SecretKey := some "   ", r2Endpoint := some "https://e",
    r2BucketName := none, supabaseUrl := some "https://s", supabaseKey := some "sk" }

/-- C3 witness: concrete discharge at an environment whose secret key
is whitespace-only. -/
theorem init_config_error_before_any_client_witness :
    (pyStrip ((env3.r2AccessKey).getD "") = "" ∨ pyStrip ((env3.r2SecretKey).getD "") = ""
      ∨ pyStrip ((env3.r2Endpoint).getD "") = "" ∨ pyStrip ((env3.supabaseUrl).getD "") = ""
      ∨ pyStrip ((env3.supabaseKey).getD "") = "")
    ∧ InitEff.s3ClientCreate ∉ (init_converter env3).2 :=
  ⟨Or.inr (Or.inl (by decide)),
   (init_config_error_before_any_client env3 w5
     (Or.inr (Or.inl (by decide)))).2.1⟩

/-- C1: whenever any pipeline stage raises, `run` issues a best-effort
ERROR update whose `error_message` is the triggering message truncated
by `[:500]`, re-raises the original error (the process outcome is that
same error), and a failure of the ERROR update itself is logged and
swallowed while the original error still propagates. -/
theorem run_marks_error_and_reraises (w : RunWorld) (e : String)
    (h : (run w).1 = Except.error e) :
    Eff.dbUpdate "ERROR" (some (pyTake e 500)) none none ∈ (run w).2
    ∧ (∀ s, w.setErrorRes = Except.error s →
        Eff.log "ERROR" ("Failed to update error status: " ++ s) ∈ (run w).2) := by
  rcases hrb : run_body w with ⟨r, effs⟩
  rcases r with e0 | u
  · have he : e0 = e := by
      simp [run, hrb] at h
      exact h
    subst he
    constructor
    · have hmem : Eff.dbUpdate "ERROR" (some (pyTake e0 500)) none none ∈ set_error w e0 := by
        rcases hse : w.setErrorRes with s | x <;> simp [set_error, hse, pyOr_empty]
      simp only [run, hrb, List.mem_append]
      exact Or.inl (Or.inr hmem)
    · intro s hs
      have hmem : Eff.log "ERROR" ("Failed to update error status: " ++ s) ∈ set_error w e0 := by
        simp [set_error, hs]
      simp only [run, hrb, List.mem_append]
      exact Or.inl (Or.inr hmem)
  · exfalso
    simp [run, hrb] at h

/-- World for the C1 witness: the storage download raises and the
error-marking update also fails. -/
def w1 : RunWorld :=
  { w5 with downloadRes := Except.error "boom", setErrorRes := Except.error "db down" }

/-- C1 witness: concrete discharge at a world whose download fails with
"boom" and whose error-marking update fails with "db down". -/
theorem run_marks_error_and_reraises_witness :
    (run w1).1 = Except.error "boom"
    ∧ Eff.dbUpdate "ERROR" (some (pyTake "boom" 500)) none none ∈ (run w1).2
    ∧ w1.setErrorRes = Except.error "db down"
    ∧ Eff.log "ERROR" ("Failed to update error status: " ++ "db down") ∈ (run w1).2 := by
  have h : (run w1).1 = Except.error "boom" := by decide
  have hthm := run_marks_error_and_reraises w1 "boom" h
  exact ⟨h, hthm.1, rfl, hthm.2 "db down" rfl⟩

theorem cleanup_count_one : cleanup_effs.count Eff.rmtree = 1 := by decide

/-- C2: on every execution of `run` — success, any stage raising, and
the error-marking path included — the `shutil.rmtree` deletion of the
working directory is issued exactly once, as the very last effect, and
it changes neither the outcome of the job (the `finally` block and the
swallowed `set_error` failure leave `run_body`'s result intact) nor can
it raise (the effect has no failure channel, because the source passes
`ignore_errors=True`). -/
theorem run_cleanup_exactly_once (w : RunWorld) :
    (run w).2.count Eff.rmtree = 1
    ∧ (run w).2.getLast? = some Eff.rmtree
    ∧ (run w).1 = (run_body w).1 := by
  rcases hrb : run_body w with ⟨r, effs⟩
  have hfree : Eff.rmtree ∉ effs := by
    have := run_body_rmtree_free w
    rw [hrb] at this
    exact this
  have hc0 : effs.count Eff.rmtree = 0 := List.count_eq_zero.mpr hfree
  rcases r with e | u
  · have hse : (set_error w e).count Eff.rmtree = 0 :=
      List.count_eq_zero.mpr (set_error_rmtree_free w e)
    refine ⟨?_, ?_, ?_⟩
    · simp only [run, hrb]
      rw [List.count_append, List.count_append, hc0, hse, cleanup_count_one]
    · simp only [run, hrb]
      exact getLast_append_cleanup _
    · simp [run, hrb]
  · refine ⟨?_, ?_, ?_⟩
    · simp only [run, hrb]
      rw [List.count_append, hc0, cleanup_count_one]
    · simp only [run, hrb]
      exact getLast_append_cleanup _
    · simp [run, hrb]

theorem run_body_ok_filter (w : RunWorld) (effs : List Eff)
    (h : run_body w = (Except.ok (), effs)) :
    effs.filter isDbUpdate =
      [Eff.dbUpdate "READY" none
        (some (upload_folder_url w.output_bucket ("processed/potree/" ++ w.asset_id)))
        (some (extract_potree_metadata w.extractW))] := by
  rcases hde : download_input w with ⟨rd, e1⟩
  rcases rd with e | input_file
  · simp [run_body, hde] at h
  · rcases hcv : convert_to_potree w input_file with ⟨rc, e2⟩
    rcases rc with e | od
    · simp [run_body, hde, hcv] at h
    · rcases hup : upload_folder w with ⟨ru, e3⟩
      rcases ru with e | url
      · simp [run_body, hde, hcv, hup] at h
      · rcases hud : update_database w url (extract_potree_metadata w.extractW) with ⟨rr, e4⟩
        rcases rr with e | x
        · simp [run_body, hde, hcv, hup, hud] at h
        · have heffs : effs =
              e1 ++ (e2 ++ (e3 ++ (e4 ++ [Eff.log "INFO" "Conversion complete!"]))) := by
            simp [run_body, hde, hcv, hup, hud] at h
            exact h.symm
          have hf1 : e1.filter isDbUpdate = [] := by
            have := download_input_filter_dbUpdate w
            rw [hde] at this
            exact this
          have hf2 : e2.filter isDbUpdate = [] := by
            have := convert_filter_dbUpdate w input_file
            rw [hcv] at this
            exact this
          have hf3 : e3.filter isDbUpdate = [] := by
            have := upload_folder_filter_dbUpdate w
            rw [hup] at this
            exact this
          have hf4 : e4.filter isDbUpdate =
              [Eff.dbUpdate "READY" none (some url)
                (some (extract_potree_metadata w.extractW))] := by
            have := update_database_filter_dbUpdate w url (extract_potree_metadata w.extractW)
            rw [hud] at this
            exact this
          have hurl := upload_folder_ok_url w url e3 hup
          rw [heffs]
          simp [List.filter_append, hf1, hf2, hf3, hf4, isDbUpdate, hurl]

/-- C6: on the success path the pipeline updates the asset record
exactly once — status READY, the artifact URL, the extracted metadata,
and `error_message` cleared to null — and across ALL runs of the
program, an update that sets `error_message` to null is always that
READY update (every ERROR update writes a message), so the success
update is the only operation that clears a prior error message. -/
theorem run_success_single_ready_update (w : RunWorld) (h : (run w).1 = Except.ok ()) :
    (run w).2.filter isDbUpdate =
      [Eff.dbUpdate "READY" none
        (some (upload_folder_url w.output_bucket ("processed/potree/" ++ w.asset_id)))
        (some (extract_potree_metadata w.extractW))]
    ∧ (∀ w' : RunWorld, ∀ st uu mm, Eff.dbUpdate st none uu mm ∈ (run w').2 →
        st = "READY" ∧ (∃ u, uu = some u) ∧ (∃ m, mm = some m)) := by
  constructor
  · rcases hrb : run_body w with ⟨r, effs⟩
    rcases r with e | u
    · exfalso
      simp [run, hrb] at h
    · have hf := run_body_ok_filter w effs (by rw [hrb])
      simp only [run, hrb]
      rw [List.filter_append, hf]
      simp [cleanup_effs, isDbUpdate]
  · intro w' st uu mm hm
    rcases hrb' : run_body w' with ⟨r', effs'⟩
    rcases r' with e | u
    · simp only [run, hrb', List.mem_append] at hm
      rcases hm with (hm | hm) | hm
      · have := run_body_dbUpdate_mem w' st none uu mm (by rw [hrb']; exact hm)
        exact ⟨this.1, ⟨_, this.2.2.1⟩, ⟨_, this.2.2.2⟩⟩
      · have := set_error_dbUpdate_mem w' e st none uu mm hm
        exact absurd this.2.1 (by simp)
      · exfalso
        simp [cleanup_effs] at hm
    · simp only [run, hrb', List.mem_append] at hm
      rcases hm with hm | hm
      · have := run_body_dbUpdate_mem w' st none uu mm (by rw [hrb']; exact hm)
        exact ⟨this.1, ⟨_, this.2.2.1⟩, ⟨_, this.2.2.2⟩⟩
      · exfalso
        simp [cleanup_effs] at hm

/-- C6 witness: concrete discharge at the fully healthy world. -/
theorem run_success_single_ready_update_witness :
    (run w5).1 = Except.ok ()
    ∧ (run w5).2.filter isDbUpdate =
        [Eff.dbUpdate "READY" none
          (some (upload_folder_url w5.output_bucket ("processed/potree/" ++ w5.asset_id)))
          (some (extract_potree_metadata w5.extractW))] := by
  have h : (run w5).1 = Except.ok () := by decide
  exact ⟨h, (run_success_single_ready_update w5 h).1⟩

theorem download_input_ok_result (w : RunWorld)
    (hk : ∃ k, derive_key w.input_key w.input_url w.urlPath w.bucket_name = Except.ok k)
    (hd : w.downloadRes = Except.ok ()) :
    ∃ p, (download_input w).1 = Except.ok p := by
  rcases hk with ⟨k, hk⟩
  refine ⟨w.work_dir ++ "/input" ++
    (if pyEndsWith (pyLower k) ".laz" then ".laz"
     else if pyEndsWith (pyLower k) ".las" then ".las"
     else if containsSub (pyLower k) ".laz" then ".laz" else ".las"), ?_⟩
  simp [download_input, hk, hd]

theorem convert_ok_result (w : RunWorld) (f : String)
    (hx : w.inputFileExists = true) (hr : w.toolReturncode = 0) :
    (convert_to_potree w f).1 = Except.ok (w.work_dir ++ "/potree") := by
  by_cases h3 : pyStrip w.toolStdout = "" <;> simp [convert_to_potree, hx, hr, h3]

theorem upload_folder_empty (w : RunWorld) (hf : w.outputFiles = []) :
    upload_folder w =
      (Except.ok (upload_folder_url w.output_bucket ("processed/potree/" ++ w.asset_id)),
       [Eff.log "INFO" ("Uploading potree to " ++ ("processed/potree/" ++ w.asset_id)),
        Eff.log "INFO" ("Uploaded " ++ toString (0 : Nat) ++ " files")]) := by
  simp [upload_folder, hf, upload_loop, run_uploads]

theorem update_database_ok_shape (w : RunWorld) (u : String) (m : Meta)
    (hu : w.updateDbRes = Except.ok ()) :
    update_database w u m =
      (Except.ok (), [Eff.log "INFO" "Updating database...",
        Eff.dbUpdate "READY" none (some u) (some m),
        Eff.log "INFO" "Database updated successfully"]) := by
  simp [update_database, hu]

/-- C10: when the converter output directory holds no regular files and
every other stage is healthy, the pipeline performs zero upload
operations, still produces the artifact URL, and marks the asset record
READY — the empty output tree counts as success. -/
theorem run_empty_tree_success (w : RunWorld)
    (hk : ∃ k, derive_key w.input_key w.input_url w.urlPath w.bucket_name = Except.ok k)
    (hd : w.downloadRes = Except.ok ())
    (hx : w.inputFileExists = true)
    (hr : w.toolReturncode = 0)
    (hf : w.outputFiles = [])
    (hu : w.updateDbRes = Except.ok ()) :
    (run w).1 = Except.ok ()
    ∧ (∀ op, Eff.s3upload op ∉ (run w).2)
    ∧ Eff.dbUpdate "READY" none
        (some (upload_folder_url w.output_bucket ("processed/potree/" ++ w.asset_id)))
        (some (extract_potree_metadata w.extractW)) ∈ (run w).2 := by
  rcases hde : download_input w with ⟨rd, e1⟩
  obtain ⟨p, hp⟩ := download_input_ok_result w hk hd
  rw [hde] at hp
  simp at hp
  subst hp
  rcases hcv : convert_to_potree w p with ⟨rc, e2⟩
  have hcr := convert_ok_result w p hx hr
  rw [hcv] at hcr
  simp at hcr
  subst hcr
  have hup := upload_folder_empty w hf
  have hud := update_database_ok_shape w
    (upload_folder_url w.output_bucket ("processed/potree/" ++ w.asset_id))
    (extract_potree_metadata w.extractW) hu
  refine ⟨?_, ?_, ?_⟩
  · simp [run, run_body, hde, hcv, hup, hud]
  · intro op
    have hs1 : Eff.s3upload op ∉ e1 := by
      have := download_input_s3upload_free w op
      rw [hde] at this
      exact this
    have hs2 : Eff.s3upload op ∉ e2 := by
      have := convert_s3upload_free w p op
      rw [hcv] at this
      exact this
    simp [run, run_body, hde, hcv, hup, hud, cleanup_effs, hs1, hs2]
  · simp [run, run_body, hde, hcv, hup, hud, cleanup_effs]

/-- World for the C10 witness: the healthy world whose converter output
tree is empty. -/
def w10 : RunWorld :=
  { w5 with outputFiles := [] }

/-- C10 witness: concrete discharge at the healthy world with no output
files. -/
theorem run_empty_tree_success_witness :
    (∃ k, derive_key w10.input_key w10.input_url w10.urlPath w10.bucket_name = Except.ok k)
    ∧ w10.outputFiles = []
    ∧ (run w10).1 = Except.ok ()
    ∧ (∀ op, Eff.s3upload op ∉ (run w10).2) := by
  have hk : ∃ k, derive_key w10.input_key w10.input_url w10.urlPath w10.bucket_name =
      Except.ok k := ⟨"k.laz", by decide⟩
  have hthm := run_empty_tree_success w10 hk rfl rfl rfl rfl rfl
  exact ⟨hk, rfl, hthm.1, hthm.2.1⟩

end PCC
